import Mathlib

/-!
Verification of the context-aware AI assistant subsystem of the pill-reminder
application.

The embedding covers:
* the response validator/repairer at the tail of `askGlobalAssistant`
  (JSON schema check with tiered salvage),
* the server action `getGlobalAssistantResponse` and the flow
  `askGlobalAssistant` (credential check, zod input validation, provider call),
* the conversation controller of `GlobalAIAssistant` (`handleSend`,
  `handleSuggestionClick`, the reset-on-navigation effect),
* `calculateAdherenceStats` and the page-context lookup `pageContextMap`.

Conventions: JavaScript values parsed from JSON are modelled by the inductive
`Json`; `JSON.parse` of the raw provider text is modelled by an
`Option Json` argument (`none` = the parse threw).  Timestamps are integer
milliseconds.  Fallible code returns `Except`; a thrown JS `Error` is
`Except.error` carrying the error's message or tag.
-/

/-- A JSON value, as produced by `JSON.parse`.  Numbers are modelled as
integers; no claim inspects a numeric payload beyond its being a non-string. -/
inductive Json where
  | null
  | bool (b : Bool)
  | num (n : Int)
  | str (s : String)
  | arr (elems : List Json)
  | obj (fields : List (String × Json))
deriving Repr

/-- JavaScript property access `j[key]` for the keys the salvage path probes:
on an object it is the field's value, on any other value it is `undefined`
(modelled as `none`).  (On `null` the access throws in JS; the one place that
can happen sits inside a `try` whose `catch` returns the same value the
`none`-propagation yields, see `repairOutput`.) -/
def Json.get : Json → String → Option Json
  | .obj fields, key => fields.lookup key
  | _, _ => none

/-- `some s` when the value is a JSON string, else `none`. -/
def Json.asString : Json → Option String
  | .str s => some s
  | _ => none

/-- Whether the value is a JSON string (the `typeof s === 'string'` guard). -/
def Json.isStr : Json → Bool
  | .str _ => true
  | _ => false

/-- The validated assistant output: `GlobalAssistantOutputSchema`
(`response: z.string()`, `suggestions: z.array(z.string()).optional()`). -/
structure GlobalAssistantOutput where
  response : String
  suggestions : Option (List String)
deriving Repr, DecidableEq

/-- `GlobalAssistantOutputSchema.safeParse` on a parsed JSON value: succeeds
exactly when the value is an object whose `response` field is a string and
whose `suggestions` field, when present, is an array of strings; unknown keys
are stripped (zod's default object behaviour). -/
def outputSchemaParse (j : Json) : Option GlobalAssistantOutput :=
  match j with
  | .obj fields =>
    match fields.lookup "response" with
    | some (.str r) =>
      match fields.lookup "suggestions" with
      | none => some ⟨r, none⟩
      | some (.arr xs) =>
        if xs.all Json.isStr then some ⟨r, some (xs.filterMap Json.asString)⟩
        else none
      | some _ => none
    | _ => none
  | _ => none

/-- The response validator/repairer: the tail of `askGlobalAssistant`.
`content` is the raw provider text; `parsed` is the outcome of
`JSON.parse(content)` (`none` when the parse threw).  Tier 1: the schema
accepts the parsed value and it is returned as validated.  Tier 2: the schema
rejects it, and the salvage path probes the `response` field, then the
`answer` field, falling back to the raw text, and keeps only the string
entries of a `suggestions` array.  Tier 3: the parse threw, and the raw text
comes back verbatim with no suggestions.  (For `parsed = some .null` the JS
property access throws into the surrounding `catch`, which returns
`⟨content, none⟩` — the same value the salvage expressions below produce.) -/
def repairOutput (content : String) (parsed : Option Json) : GlobalAssistantOutput :=
  match parsed with
  | none => ⟨content, none⟩
  | some j =>
    match outputSchemaParse j with
    | some out => out
    | none =>
      let response :=
        match (j.get "response").bind Json.asString with
        | some r => r
        | none =>
          match (j.get "answer").bind Json.asString with
          | some a => a
          | none => content
      let suggestions :=
        match j.get "suggestions" with
        | some (.arr xs) => some (xs.filterMap Json.asString)
        | _ => none
      ⟨response, suggestions⟩

/-- The output shape of the documented contract, written from the claim's
words: an object whose `response` is a string and whose `suggestions`, if the
field is present, is an array all of whose entries are strings. -/
def matchesOutputShape (j : Json) : Bool :=
  match j with
  | .obj fields =>
    (match fields.lookup "response" with
     | some (.str _) => true
     | _ => false) &&
    (match fields.lookup "suggestions" with
     | none => true
     | some (.arr xs) => xs.all Json.isStr
     | some _ => false)
  | _ => false

/-- The claimed behaviour of the validator/repairer, written from the claim's
words: text matching the shape is returned unchanged; text parsing as JSON but
failing the shape yields the parsed `response` field if a string, else the
`answer` field if a string, else the raw text, with `suggestions` the string
entries of the parsed `suggestions` field when that field is an array, else
absent; an unparseable text yields the raw text with no suggestions. -/
def claimedRepairOutput (content : String) (parsed : Option Json) : GlobalAssistantOutput :=
  match parsed with
  | none => ⟨content, none⟩
  | some j =>
    let salvagedResponse :=
      match (j.get "response").bind Json.asString with
      | some r => r
      | none =>
        match (j.get "answer").bind Json.asString with
        | some a => a
        | none => content
    let salvagedSuggestions :=
      match j.get "suggestions" with
      | some (.arr xs) => some (xs.filterMap Json.asString)
      | _ => none
    if matchesOutputShape j then
      ⟨salvagedResponse,
       match j.get "suggestions" with
       | some (.arr xs) => some (xs.filterMap Json.asString)
       | _ => none⟩
    else
      ⟨salvagedResponse, salvagedSuggestions⟩

/-- C1: the response validator/repairer is total and implements exactly the
three documented tiers: schema-valid JSON is returned unchanged, shape
failures are salvaged through the `response` → `answer` → raw-text probe with
`suggestions` restricted to the string entries of an array-valued
`suggestions` field, and a parse failure returns the raw text verbatim with no
suggestions. -/
theorem repairOutput_eq_claimed (content : String) (parsed : Option Json) :
    repairOutput content parsed = claimedRepairOutput content parsed := by
  cases parsed with
  | none => rfl
  | some j =>
    cases j with
    | obj fields =>
      simp only [repairOutput, claimedRepairOutput, outputSchemaParse,
        matchesOutputShape, Json.get]
      rcases hr : fields.lookup "response" with _ | jr
      · simp [hr]
      · cases jr with
        | str r =>
          rcases hs : fields.lookup "suggestions" with _ | js
          · simp [hr, hs, Json.asString]
          · cases js with
            | arr xs =>
              by_cases hall : xs.all Json.isStr
              · simp [hr, hs, hall, Json.asString]
              · simp [hr, hs, hall, Json.asString]
            | null => simp [hr, hs, Json.asString]
            | bool b => simp [hr, hs, Json.asString]
            | num n => simp [hr, hs, Json.asString]
            | str s => simp [hr, hs, Json.asString]
            | obj f2 => simp [hr, hs, Json.asString]
        | null => simp [hr, Json.asString]
        | bool b => simp [hr, Json.asString]
        | num n => simp [hr, Json.asString]
        | arr xs => simp [hr, Json.asString]
        | obj f2 => simp [hr, Json.asString]
    | null => rfl
    | bool b => rfl
    | num n => rfl
    | str s => rfl
    | arr xs => rfl

/-! ## Conversation controller (`GlobalAIAssistant` component state) -/

/-- A conversation turn's role. -/
inductive Role where
  | user
  | assistant
deriving Repr, DecidableEq

/-- A conversation turn (`type Message` in the component): role, content and,
for assistant turns, optional suggestion chips. -/
structure Message where
  role : Role
  content : String
  suggestions : Option (List String) := none
deriving Repr, DecidableEq

/-- The controller state of `GlobalAIAssistant`: the transcript (`messages`),
the draft input (`input`) and the in-flight flag (`isPending`, from
`useTransition`). -/
structure ChatState where
  messages : List Message
  input : String
  isPending : Bool
deriving Repr, DecidableEq

/-- JavaScript `String.prototype.trim`: strip leading and trailing whitespace.
(Executable model; Lean's own `String.trim` is equivalent but does not reduce
inside `decide`.) -/
def jsTrim (s : String) : String :=
  String.mk (((s.data.dropWhile Char.isWhitespace).reverse.dropWhile
    Char.isWhitespace).reverse)

/-- The message text `handleSend` resolves:
`const text = messageText || input.trim();` — a supplied non-empty
`messageText` is used verbatim (not trimmed); an absent or empty one falls
back to the trimmed draft. -/
def handleSendText (s : ChatState) (messageText : Option String) : String :=
  match messageText with
  | some m => if m = "" then jsTrim s.input else m
  | none => jsTrim s.input

/-- The synchronous part of `handleSend`, up to entering the transition:
`if (!text || isPending) return;` then append the user turn, clear the draft
and mark the request in flight.  The second component is the text of the
dispatched request (`none` when the guard rejected the call and nothing was
dispatched). -/
def handleSendStart (s : ChatState) (messageText : Option String) :
    ChatState × Option String :=
  if handleSendText s messageText = "" || s.isPending then (s, none)
  else
    ({ messages := s.messages ++
         [{ role := .user, content := handleSendText s messageText }],
       input := "",
       isPending := true }, some (handleSendText s messageText))

/-- How the awaited `getGlobalAssistantResponse` call settles, as seen by
`handleSend`'s transition body: a validated output (no `error` key), an
`\x7berror: ...\x7d` result object, or a thrown exception caught by the
`catch` block. -/
inductive ActionOutcome where
  | success (out : GlobalAssistantOutput)
  | errorResult
  | thrown
deriving Repr

/-- The settling part of `handleSend`'s transition: exactly one assistant turn
is appended (the validated response with its suggestions, the fixed gateway
error message, or the distinct fixed exception message) and the transition's
pending flag drops. -/
def handleSendSettle (s : ChatState) (o : ActionOutcome) : ChatState :=
  match o with
  | .success out =>
    { s with
      messages := s.messages ++
        [{ role := .assistant, content := out.response,
           suggestions := out.suggestions }],
      isPending := false }
  | .errorResult =>
    { s with
      messages := s.messages ++
        [{ role := .assistant,
           content := "Sorry, I encountered an error. Please try again." }],
      isPending := false }
  | .thrown =>
    { s with
      messages := s.messages ++
        [{ role := .assistant,
           content := "Sorry, something went wrong. Please try again." }],
      isPending := false }

/-- `handleSuggestionClick(suggestion)` is literally `handleSend(suggestion)`. -/
def handleSuggestionClick (s : ChatState) (suggestion : String) :
    ChatState × Option String :=
  handleSendStart s (some suggestion)

/-- The `useEffect` on `pathname`: navigating clears the transcript and the
draft.  The pending transition of an in-flight request is not cancelled. -/
def resetOnPathChange (s : ChatState) : ChatState :=
  { s with messages := [], input := "" }

/-- C2: a dispatched submit marks the request in flight, and however the
request settles — validated output, `\x7berror\x7d` result from the gateway,
or an exception during orchestration — exactly one assistant-role turn is
appended and the in-flight flag returns to false; the gateway-failure turn
carries the fixed message "Sorry, I encountered an error. Please try again."
and the exception turn carries the distinct fixed message "Sorry, something
went wrong. Please try again.". -/
theorem dispatched_submit_settles (s s1 : ChatState) (m : Option String)
    (t : String) (h : handleSendStart s m = (s1, some t)) (o : ActionOutcome) :
    s1.isPending = true ∧
    (handleSendSettle s1 o).isPending = false ∧
    (∃ a : Message, a.role = .assistant ∧
      (handleSendSettle s1 o).messages = s1.messages ++ [a] ∧
      (∀ out, o = .success out →
        a.content = out.response ∧ a.suggestions = out.suggestions) ∧
      (o = .errorResult →
        a.content = "Sorry, I encountered an error. Please try again.") ∧
      (o = .thrown →
        a.content = "Sorry, something went wrong. Please try again.")) := by
  have hp : s1.isPending = true := by
    unfold handleSendStart at h
    split at h
    · simp at h
    · injection h with h1 h2
      rw [← h1]
  refine ⟨hp, ?_, ?_⟩
  · cases o <;> rfl
  · cases o with
    | success out =>
      refine ⟨⟨.assistant, out.response, out.suggestions⟩, rfl, rfl, ?_, ?_, ?_⟩
      · intro out2 ho
        cases ho
        exact ⟨rfl, rfl⟩
      · intro ho
        cases ho
      · intro ho
        cases ho
    | errorResult =>
      refine ⟨⟨.assistant, "Sorry, I encountered an error. Please try again.", none⟩,
        rfl, rfl, ?_, fun _ => rfl, ?_⟩
      · intro out2 ho
        cases ho
      · intro ho
        cases ho
    | thrown =>
      refine ⟨⟨.assistant, "Sorry, something went wrong. Please try again.", none⟩,
        rfl, rfl, ?_, ?_, fun _ => rfl⟩
      · intro out2 ho
        cases ho
      · intro ho
        cases ho

/-- Witness for `dispatched_submit_settles` at a concrete dispatched submit. -/
theorem dispatched_submit_settles_witness :
    (handleSendStart ⟨[], "", false⟩ (some "hello") =
      (⟨[⟨.user, "hello", none⟩], "", true⟩, some "hello")) ∧
    ((⟨[⟨.user, "hello", none⟩], "", true⟩ : ChatState).isPending = true ∧
      (handleSendSettle ⟨[⟨.user, "hello", none⟩], "", true⟩ .errorResult).isPending = false ∧
      (∃ a : Message, a.role = .assistant ∧
        (handleSendSettle ⟨[⟨.user, "hello", none⟩], "", true⟩ .errorResult).messages =
          (⟨[⟨.user, "hello", none⟩], "", true⟩ : ChatState).messages ++ [a] ∧
        (∀ out, ActionOutcome.errorResult = .success out →
          a.content = out.response ∧ a.suggestions = out.suggestions) ∧
        (ActionOutcome.errorResult = .errorResult →
          a.content = "Sorry, I encountered an error. Please try again.") ∧
        (ActionOutcome.errorResult = .thrown →
          a.content = "Sorry, something went wrong. Please try again."))) :=
  ⟨by decide,
   dispatched_submit_settles ⟨[], "", false⟩ ⟨[⟨.user, "hello", none⟩], "", true⟩
     (some "hello") "hello" (by decide) .errorResult⟩

/-- C3: a submit issued while a request is in flight has no observable effect:
the state (transcript and draft) is returned unchanged and nothing is
dispatched. -/
theorem submit_while_pending_noop (s : ChatState) (m : Option String)
    (h : s.isPending = true) : handleSendStart s m = (s, none) := by
  unfold handleSendStart
  simp [h]

/-- Witness for `submit_while_pending_noop` at a concrete in-flight state. -/
theorem submit_while_pending_noop_witness :
    handleSendStart ⟨[⟨.user, "hi", none⟩], "draft", true⟩ (some "again") =
      (⟨[⟨.user, "hi", none⟩], "draft", true⟩, none) :=
  submit_while_pending_noop ⟨[⟨.user, "hi", none⟩], "draft", true⟩ (some "again") rfl

/-- C4 (the code at the failing input): a submit is dispatched on one page,
the route changes while the request is in flight (the effect clears the
transcript), and the late-arriving response is then appended by the
transition's functional state update — the stale assistant turn lands in the
fresh transcript of the new context instead of being discarded. -/
theorem stale_response_appended_after_reset :
    (handleSendSettle
      (resetOnPathChange
        (handleSendStart ⟨[], "", false⟩
          (some "How am I doing with my adherence?")).1)
      (.success ⟨"stale answer", none⟩)).messages =
    [⟨.assistant, "stale answer", none⟩] := by decide

/-- C6 as stated fails: the whitespace-only text " ", supplied as a selected
suggestion's text, is not a no-op — `handleSend` only trims the typed draft
(`messageText || input.trim()`), so the non-empty whitespace string passes the
`!text` guard: a user turn with content " " is appended and a request with
text " " is dispatched. -/
theorem blank_suggestion_dispatches :
    (handleSendStart ⟨[], "", false⟩ (some " ")).2 = some " " ∧
    (handleSendStart ⟨[], "", false⟩ (some " ")).1.messages =
      [⟨.user, " ", none⟩] := by decide

/-- C6 amended: a typed submit of an empty or whitespace-only draft is a
no-op (the draft is trimmed before the guard), and an empty-string suggestion
falls back to the trimmed draft, hence is a no-op when the draft is blank;
but a non-empty whitespace-only text supplied as a suggestion passes the
guard and is dispatched verbatim, with a user turn appended. -/
theorem blank_message_guard (s : ChatState) (m : String)
    (hdraft : jsTrim s.input = "") (_hm : jsTrim m = "") :
    handleSendStart s none = (s, none) ∧
    handleSendStart s (some "") = (s, none) ∧
    (m ≠ "" → s.isPending = false →
      handleSendStart s (some m) =
        ({ messages := s.messages ++ [{ role := .user, content := m }],
           input := "", isPending := true }, some m)) := by
  refine ⟨?_, ?_, ?_⟩
  · simp [handleSendStart, handleSendText, hdraft]
  · simp [handleSendStart, handleSendText, hdraft]
  · intro hne hpend
    have hmm : handleSendText s (some m) = m := by
      simp [handleSendText, hne]
    simp [handleSendStart, hmm, hne, hpend]

/-- Witness for `blank_message_guard` with a whitespace draft and the
whitespace-only suggestion text " ". -/
theorem blank_message_guard_witness :
    jsTrim " " = "" ∧
    (handleSendStart ⟨[], " ", false⟩ none = (⟨[], " ", false⟩, none) ∧
     handleSendStart ⟨[], " ", false⟩ (some "") = (⟨[], " ", false⟩, none) ∧
     (" " ≠ "" → (⟨[], " ", false⟩ : ChatState).isPending = false →
       handleSendStart ⟨[], " ", false⟩ (some " ") =
         (⟨[⟨.user, " ", none⟩], "", true⟩, some " "))) :=
  ⟨by decide, blank_message_guard ⟨[], " ", false⟩ " " (by decide) (by decide)⟩

/-- C9 as stated fails: for the non-empty suggestion text " hi " (surrounding
whitespace), selecting the suggestion appends a user turn with content " hi "
and dispatches " hi ", while typing the same text and submitting trims the
draft and appends "hi" — the transcript effects differ. -/
theorem padded_suggestion_differs :
    (handleSuggestionClick ⟨[], "", false⟩ " hi ").1.messages ≠
      (handleSendStart ⟨[], " hi ", false⟩ none).1.messages := by decide

/-- C9 amended: for every suggestion text that is non-empty and carries no
surrounding whitespace (it equals its own trim), selecting the suggestion
produces the identical transcript effect to typing that text and submitting
it — the same turns are appended and the same request text (if any) is
dispatched, whatever the prior transcript, draft and in-flight flag. -/
theorem suggestion_click_eq_typed_submit (msgs : List Message) (draft : String)
    (p : Bool) (t : String) (hne : t ≠ "") (ht : jsTrim t = t) :
    (handleSuggestionClick ⟨msgs, draft, p⟩ t).1.messages =
      (handleSendStart ⟨msgs, t, p⟩ none).1.messages ∧
    (handleSuggestionClick ⟨msgs, draft, p⟩ t).2 =
      (handleSendStart ⟨msgs, t, p⟩ none).2 := by
  have h1 : handleSendText ⟨msgs, draft, p⟩ (some t) = t := by
    simp [handleSendText, hne]
  have h2 : handleSendText ⟨msgs, t, p⟩ none = t := by
    simp [handleSendText, ht]
  cases p <;>
    simp [handleSuggestionClick, handleSendStart, h1, h2, hne]

/-- Witness for `suggestion_click_eq_typed_submit` at the suggestion "hi". -/
theorem suggestion_click_eq_typed_submit_witness :
    ("hi" : String) ≠ "" ∧
    ((handleSuggestionClick ⟨[], "draft", false⟩ "hi").1.messages =
        (handleSendStart ⟨[], "hi", false⟩ none).1.messages ∧
      (handleSuggestionClick ⟨[], "draft", false⟩ "hi").2 =
        (handleSendStart ⟨[], "hi", false⟩ none).2) :=
  ⟨by decide, suggestion_click_eq_typed_submit [] "draft" false "hi"
    (by decide) (by decide)⟩

/-! ## Page context (`pageContextMap`, `pageInfo`, suggestion chips, system prompts) -/

/-- `type PageContext = 'dashboard' | 'medications' | 'reports'`. -/
inductive PageContext where
  | dashboard
  | medications
  | reports
deriving Repr, DecidableEq

/-- The route-to-context table `pageContextMap`. -/
def pageContextMap : List (String × PageContext) :=
  [("/dashboard", .dashboard),
   ("/medications", .medications),
   ("/reports", .reports)]

/-- `const pageContext: PageContext = pageContextMap[pathname] || 'dashboard';`
— a pathname outside the table falls back to `dashboard`. -/
def pageContextOf (pathname : String) : PageContext :=
  (pageContextMap.lookup pathname).getD .dashboard

/-- The `label` field of `pageInfo` (the badge text).  The record's other
fields — icon component, description and placeholder copy — are UI constants
no claim mentions and are omitted. -/
def pageLabel : PageContext → String
  | .dashboard => "Dashboard"
  | .medications => "Medications"
  | .reports => "Reports"

/-- The default suggestion chips rendered for an empty transcript, per page
context (the `SuggestionChip` children in the component's JSX). -/
def defaultSuggestionChips : PageContext → List String
  | .dashboard =>
    ["What medications do I have today?",
     "How am I doing with my adherence?"]
  | .medications =>
    ["What are common medication interactions?",
     "Tips for remembering to take my pills"]
  | .reports =>
    ["How can I improve my adherence?",
     "Why is medication adherence important?"]

/-- The shared structured-output instruction block appended to every system
prompt (`jsonInstructions`). -/
def jsonInstructions : String :=
  "\n\nIMPORTANT: You must respond in JSON format with this structure:\n" ++
  "\x7b\n  \"response\": \"Your helpful response here\",\n" ++
  "  \"suggestions\": [\"Follow-up question 1?\", \"Follow-up question 2?\"]\n\x7d\n\n" ++
  "The \"suggestions\" array should contain 2-3 short follow-up questions the user might want to ask next."

/-- The context-keyed system prompts (`systemPrompts`). -/
def systemPrompts : PageContext → String
  | .dashboard =>
    "You are PillPal AI, a friendly medication assistant helping users with their daily medication routine.\n\n" ++
    "You're currently on the DASHBOARD page where users see:\n" ++
    "- Today's medication schedule\n- Quick adherence overview\n\n" ++
    "Your role:\n1. Answer questions about today's medications and schedule\n" ++
    "2. Provide reminders and encouragement for medication adherence\n" ++
    "3. Offer general health tips related to their medications\n" ++
    "4. Help users understand their daily routine\n\n" ++
    "Keep responses concise, friendly, and actionable. Use bullet points for clarity when listing multiple items." ++
    jsonInstructions
  | .medications =>
    "You are PillPal AI, a knowledgeable medication assistant helping users manage their medications.\n\n" ++
    "You're currently on the MEDICATIONS page where users can:\n" ++
    "- View and manage all their medications\n- See dosages and schedules\n- Access smart schedule suggestions\n\n" ++
    "Your role:\n1. Answer questions about specific medications (side effects, interactions, timing)\n" ++
    "2. Explain pharmacological best practices for medication timing\n" ++
    "3. Help users understand their medication regimen\n" ++
    "4. Provide guidance on medication management\n\n" ++
    "Always emphasize that users should consult their healthcare provider for medical advice.\n" ++
    "Keep responses informative but accessible." ++
    jsonInstructions
  | .reports =>
    "You are PillPal AI, an insightful medication adherence analyst helping users understand their patterns.\n\n" ++
    "You're currently on the REPORTS page where users see:\n" ++
    "- Monthly adherence charts\n- Calendar view of logged doses\n- Historical medication data\n\n" ++
    "Your role:\n1. Explain adherence patterns and trends\n" ++
    "2. Provide insights on medication-taking behavior\n" ++
    "3. Suggest ways to improve adherence\n" ++
    "4. Help users understand the importance of consistency\n\n" ++
    "Be encouraging and constructive. Focus on progress and actionable improvements.\n" ++
    "Keep responses motivating and data-driven." ++
    jsonInstructions

/-- C10: a pathname that is none of '/dashboard', '/medications', '/reports'
resolves to the `dashboard` context, so the dashboard badge label, the
dashboard default suggestion chips and the dashboard system prompt are used
on unknown routes — the assistant is neither disabled nor failing there. -/
theorem unknown_route_defaults_dashboard (pathname : String)
    (h1 : pathname ≠ "/dashboard") (h2 : pathname ≠ "/medications")
    (h3 : pathname ≠ "/reports") :
    pageContextOf pathname = .dashboard ∧
    pageLabel (pageContextOf pathname) = "Dashboard" ∧
    defaultSuggestionChips (pageContextOf pathname) =
      ["What medications do I have today?",
       "How am I doing with my adherence?"] ∧
    systemPrompts (pageContextOf pathname) = systemPrompts .dashboard := by
  have b1 : (pathname == "/dashboard") = false := beq_eq_false_iff_ne.mpr h1
  have b2 : (pathname == "/medications") = false := beq_eq_false_iff_ne.mpr h2
  have b3 : (pathname == "/reports") = false := beq_eq_false_iff_ne.mpr h3
  have hc : pageContextOf pathname = .dashboard := by
    simp [pageContextOf, pageContextMap, List.lookup, b1, b2, b3]
  exact ⟨hc, by rw [hc]; rfl, by rw [hc]; rfl, by rw [hc]⟩

/-- Witness for `unknown_route_defaults_dashboard` at the unknown route
"/settings". -/
theorem unknown_route_defaults_dashboard_witness :
    pageContextOf "/settings" = .dashboard ∧
    pageLabel (pageContextOf "/settings") = "Dashboard" ∧
    defaultSuggestionChips (pageContextOf "/settings") =
      ["What medications do I have today?",
       "How am I doing with my adherence?"] ∧
    systemPrompts (pageContextOf "/settings") = systemPrompts .dashboard :=
  unknown_route_defaults_dashboard "/settings" (by decide) (by decide) (by decide)

/-! ## Server action and provider flow (`getGlobalAssistantResponse`, `askGlobalAssistant`) -/

/-- A medication's schedule as sent to the assistant
(`schedule: \x7b frequency, times \x7d`). -/
structure MedicationSchedule where
  frequency : String
  times : List String
deriving Repr, DecidableEq

/-- A medication snapshot (`\x7b name, dosage, schedule \x7d`). -/
structure MedicationSnapshot where
  name : String
  dosage : String
  schedule : MedicationSchedule
deriving Repr, DecidableEq

/-- One of today's log entries (`\x7b medicationName, time, status \x7d`);
`status` is a raw string that the zod enum restricts to
taken / missed / skipped. -/
structure TodayLog where
  medicationName : String
  time : String
  status : String
deriving Repr, DecidableEq

/-- The adherence stats object (`\x7b totalScheduled, totalTaken,
adherenceRate \x7d`, all `z.number()`). -/
structure AdherenceStats where
  totalScheduled : Int
  totalTaken : Int
  adherenceRate : Int
deriving Repr, DecidableEq

/-- The raw input of the assistant call surface.  `pageContext` is a raw
string the zod enum restricts to dashboard / medications / reports; the
structural parts of the zod schemas (field presence and primitive types) are
carried by the Lean types, the value-level enum and length constraints by the
validation predicates below. -/
structure GlobalAssistantInput where
  pageContext : String
  userMessage : String
  medications : List MedicationSnapshot
  todayLogs : Option (List TodayLog)
  adherenceStats : Option AdherenceStats
deriving Repr, DecidableEq

/-- `z.enum(['dashboard', 'medications', 'reports'])` on the page context. -/
def validPageContext (s : String) : Bool :=
  s == "dashboard" || s == "medications" || s == "reports"

/-- `z.enum(['taken', 'missed', 'skipped'])` on a log entry's status. -/
def validLogStatus (s : String) : Bool :=
  s == "taken" || s == "missed" || s == "skipped"

/-- `GlobalAssistantActionInput.safeParse` (the server action's schema): the
page-context enum, `userMessage: z.string().min(1)`, and the status enum on
every entry of `todayLogs` when present. -/
def actionInputValid (i : GlobalAssistantInput) : Bool :=
  validPageContext i.pageContext &&
  !i.userMessage.isEmpty &&
  (i.todayLogs.getD []).all (fun l => validLogStatus l.status)

/-- `GlobalAssistantInputSchema.safeParse` (the flow's schema): identical but
without the `.min(1)` on `userMessage`. -/
def flowInputValid (i : GlobalAssistantInput) : Bool :=
  validPageContext i.pageContext &&
  (i.todayLogs.getD []).all (fun l => validLogStatus l.status)

/-- The errors `askGlobalAssistant` can throw, in source order:
missing `OPENAI_API_KEY`, zod input rejection, a rejected
`chat.completions.create` call, and a falsy `content` in the completion. -/
inductive AskError where
  | apiKeyMissing
  | invalidInput
  | providerFailure
  | noContent
deriving Repr, DecidableEq

/-- How the provider call behaves, supplied as an oracle: it rejects, or it
resolves with the raw message text and the outcome of `JSON.parse` on it. -/
inductive ProviderCall where
  | fails
  | succeeds (text : String) (parsed : Option Json)
deriving Repr

/-- Result of the flow: the thrown error or the (possibly repaired) output,
together with whether an outbound provider request was dispatched. -/
structure AskResult where
  result : Except AskError GlobalAssistantOutput
  requestDispatched : Bool
deriving Repr

/-- `askGlobalAssistant`: check `process.env.OPENAI_API_KEY` first (any falsy
value — absent or empty — throws before anything else), then validate the
input against the flow schema, and only then build the prompts and dispatch
the provider request; a falsy response body throws, and any other response is
passed through the validator/repairer (`repairOutput`). -/
def askGlobalAssistant (apiKey : Option String) (input : GlobalAssistantInput)
    (provider : ProviderCall) : AskResult :=
  match apiKey with
  | none => ⟨.error .apiKeyMissing, false⟩
  | some k =>
    if k = "" then ⟨.error .apiKeyMissing, false⟩
    else if flowInputValid input then
      match provider with
      | .fails => ⟨.error .providerFailure, true⟩
      | .succeeds text parsed =>
        if text = "" then ⟨.error .noContent, true⟩
        else ⟨.ok (repairOutput text parsed), true⟩
    else ⟨.error .invalidInput, false⟩

/-- A value returned (not thrown) by the server action: the assistant output,
or the `\x7b error: string \x7d` object produced for a caught failure. -/
inductive ActionValue where
  | output (o : GlobalAssistantOutput)
  | errorField (message : String)
deriving Repr, DecidableEq

/-- Result of the server action: `Except.error` models a thrown `Error` with
its message, `Except.ok` a returned value; `requestDispatched` records
whether the provider request went out. -/
structure ActionResult where
  result : Except String ActionValue
  requestDispatched : Bool
deriving Repr

/-- `getGlobalAssistantResponse`: validate against the action schema and throw
'Invalid input.' on rejection before anything is attempted; otherwise call
`askGlobalAssistant`, catching any of its throws into the
`\x7b error: 'Failed to get response. Please try again.' \x7d` result. -/
def getGlobalAssistantResponse (apiKey : Option String)
    (input : GlobalAssistantInput) (provider : ProviderCall) : ActionResult :=
  if actionInputValid input then
    match askGlobalAssistant apiKey input provider with
    | ⟨.ok o, d⟩ => ⟨.ok (.output o), d⟩
    | ⟨.error _, d⟩ =>
      ⟨.ok (.errorField "Failed to get response. Please try again."), d⟩
  else ⟨.error "Invalid input.", false⟩

/-- C5: an absent (or empty, hence falsy) provider credential is detected
before anything else in the flow — no provider request is dispatched — and is
surfaced by throwing the distinct configuration error `apiKeyMissing`, which
is a different error from the per-request provider failure and from the
empty-body failure. -/
theorem missing_api_key_fatal (apiKey : Option String)
    (input : GlobalAssistantInput) (provider : ProviderCall)
    (h : apiKey = none ∨ apiKey = some "") :
    askGlobalAssistant apiKey input provider = ⟨.error .apiKeyMissing, false⟩ ∧
    AskError.apiKeyMissing ≠ AskError.providerFailure ∧
    AskError.apiKeyMissing ≠ AskError.noContent := by
  refine ⟨?_, by decide, by decide⟩
  rcases h with rfl | rfl
  · rfl
  · rfl

/-- Witness for `missing_api_key_fatal` with the credential absent. -/
theorem missing_api_key_fatal_witness :
    askGlobalAssistant none ⟨"dashboard", "hello", [], none, none⟩ .fails =
      ⟨.error .apiKeyMissing, false⟩ ∧
    AskError.apiKeyMissing ≠ AskError.providerFailure ∧
    AskError.apiKeyMissing ≠ AskError.noContent :=
  missing_api_key_fatal none ⟨"dashboard", "hello", [], none, none⟩ .fails
    (Or.inl rfl)

/-- C7: an input failing the documented shape (page context outside the enum,
empty message, log entry with a malformed status) makes the call surface
throw the explicit 'Invalid input.' error with no provider request
dispatched; and this thrown invalid-input error is distinct from the
`\x7b error: string \x7d` result of provider/runtime failures — a valid input
never throws, it always returns a value (the output, or the error-field
object). -/
theorem invalid_input_fails_fast (apiKey : Option String)
    (input : GlobalAssistantInput) (provider : ProviderCall)
    (h : actionInputValid input = false) :
    getGlobalAssistantResponse apiKey input provider =
      ⟨.error "Invalid input.", false⟩ ∧
    (∀ (k : Option String) (i : GlobalAssistantInput) (p : ProviderCall),
      actionInputValid i = true →
        ∃ v : ActionValue, (getGlobalAssistantResponse k i p).result = .ok v) := by
  constructor
  · simp [getGlobalAssistantResponse, h]
  · intro k i p hv
    unfold getGlobalAssistantResponse
    rw [hv]
    simp only [if_true]
    rcases askGlobalAssistant k i p with ⟨r, d⟩
    cases r with
    | ok o => exact ⟨.output o, rfl⟩
    | error e =>
      exact ⟨.errorField "Failed to get response. Please try again.", rfl⟩

/-- Witness for `invalid_input_fails_fast` at the out-of-enum page context
"settings". -/
theorem invalid_input_fails_fast_witness :
    actionInputValid ⟨"settings", "hello", [], none, none⟩ = false ∧
    getGlobalAssistantResponse (some "sk-test")
        ⟨"settings", "hello", [], none, none⟩ .fails =
      ⟨.error "Invalid input.", false⟩ :=
  ⟨by decide,
   (invalid_input_fails_fast (some "sk-test")
     ⟨"settings", "hello", [], none, none⟩ .fails (by decide)).1⟩

/-! ## Adherence stats (`calculateAdherenceStats`) -/

/-- Milliseconds per day; `log.time` timestamps and the `Date` arithmetic of
the controller are modelled in integer milliseconds. -/
def msPerDay : Int := 86400000

/-- An intake-log entry as `calculateAdherenceStats` reads it: its timestamp
and its status string. -/
structure IntakeLogEntry where
  time : Int
  status : String
deriving Repr, DecidableEq

/-- The stats object the controller sends
(`\x7b totalScheduled, totalTaken, adherenceRate \x7d`). -/
structure AdherenceSummary where
  totalScheduled : Nat
  totalTaken : Nat
  adherenceRate : Nat
deriving Repr, DecidableEq

/-- `Math.round((taken / scheduled) * 100)` for nonnegative operands:
round-half-up of the exact rational, `(200·taken + scheduled) / (2·scheduled)`
in integer division. -/
def jsRoundPercent (taken scheduled : Nat) : Nat :=
  (200 * taken + scheduled) / (2 * scheduled)

/-- `calculateAdherenceStats`: keep the logs with
`logDate >= thirtyDaysAgo` (no upper bound), count the kept entries with
status 'taken', floor the denominator at 1 (`recentLogs.length || 1`), and
round the percentage. -/
def calculateAdherenceStats (now : Int) (logs : List IntakeLogEntry) :
    AdherenceSummary :=
  let thirtyDaysAgo := now - 30 * msPerDay
  let recentLogs := logs.filter (fun l => decide (thirtyDaysAgo ≤ l.time))
  let totalTaken := (recentLogs.filter (fun l => l.status == "taken")).length
  let totalScheduled := if recentLogs.length = 0 then 1 else recentLogs.length
  ⟨totalScheduled, totalTaken, jsRoundPercent totalTaken totalScheduled⟩

/-- The claimed computation, written from the claim's words: identical except
that entries are filtered to the trailing 30-day window *ending today*, i.e.
with an upper bound at `now` as well. -/
def adherenceStatsClaimed (now : Int) (logs : List IntakeLogEntry) :
    AdherenceSummary :=
  let recentLogs := logs.filter
    (fun l => decide (now - 30 * msPerDay ≤ l.time) && decide (l.time ≤ now))
  let totalTaken := (recentLogs.filter (fun l => l.status == "taken")).length
  let totalScheduled := if recentLogs.length = 0 then 1 else recentLogs.length
  ⟨totalScheduled, totalTaken, jsRoundPercent totalTaken totalScheduled⟩

/-- C8 as stated fails: the code's filter has no upper bound, so a
future-dated entry (one day after `now`) is counted, while a trailing 30-day
window ending today would exclude it — on that log list the code reports
rate 100 where the claimed window yields rate 0. -/
theorem future_log_counted :
    calculateAdherenceStats 0 [⟨msPerDay, "taken"⟩] ≠
      adherenceStatsClaimed 0 [⟨msPerDay, "taken"⟩] ∧
    calculateAdherenceStats 0 [⟨msPerDay, "taken"⟩] = ⟨1, 1, 100⟩ ∧
    adherenceStatsClaimed 0 [⟨msPerDay, "taken"⟩] = ⟨1, 0, 0⟩ := by decide

/-- Eight log entries inside the trailing 30-day window, six of them taken. -/
def sampleMonthLogs : List IntakeLogEntry :=
  [⟨1 * msPerDay, "taken"⟩, ⟨4 * msPerDay, "taken"⟩, ⟨8 * msPerDay, "missed"⟩,
   ⟨12 * msPerDay, "taken"⟩, ⟨16 * msPerDay, "taken"⟩, ⟨20 * msPerDay, "skipped"⟩,
   ⟨24 * msPerDay, "taken"⟩, ⟨28 * msPerDay, "taken"⟩]

/-- C8 amended: entries are filtered to those at most 30 days old (timestamp
at or after `now` minus 30 days, with no upper bound, so future-dated entries
are also included); `totalTaken` counts the kept entries with status taken,
`totalScheduled` is the count of all kept entries floored at 1, and
`adherenceRate` is the half-up rounding of `totalTaken / totalScheduled ×
100`; in particular eight in-window entries with six taken give rate 75. -/
theorem adherence_stats_characterization :
    (∀ (now : Int) (logs : List IntakeLogEntry),
      (calculateAdherenceStats now logs).totalTaken =
        logs.countP
          (fun l => decide (now - 30 * msPerDay ≤ l.time) &&
            (l.status == "taken")) ∧
      (calculateAdherenceStats now logs).totalScheduled =
        max (logs.countP (fun l => decide (now - 30 * msPerDay ≤ l.time))) 1 ∧
      (calculateAdherenceStats now logs).adherenceRate =
        (200 * (calculateAdherenceStats now logs).totalTaken +
            (calculateAdherenceStats now logs).totalScheduled) /
          (2 * (calculateAdherenceStats now logs).totalScheduled)) ∧
    calculateAdherenceStats (30 * msPerDay) sampleMonthLogs = ⟨8, 6, 75⟩ := by
  constructor
  · intro now logs
    refine ⟨?_, ?_, rfl⟩
    · dsimp only [calculateAdherenceStats]
      rw [List.countP_eq_length_filter, List.filter_filter]
      exact congrArg List.length (List.filter_congr (fun a _ => Bool.and_comm _ _))
    · dsimp only [calculateAdherenceStats]
      rw [List.countP_eq_length_filter]
      rcases hn : (logs.filter
        (fun l => decide (now - 30 * msPerDay ≤ l.time))).length with _ | n
      · rw [hn]
        decide
      · rw [hn, if_neg (Nat.succ_ne_zero n)]
        omega
  · decide
